import Mathlib

/-
  Shallow embedding of src/bhyve/bhyve_command.c (bhyve command generation).

  Pure C helpers become Lean functions.  Machine integers are modelled as
  Nat (or Int where the C value may be negative, e.g. the VNC port field).
  Fallible C functions returning -1/NULL become Except/Option values, with
  the error kind recorded (VIR_ERR_CONFIG_UNSUPPORTED vs internal errors).
  Host side effects (tap creation, port allocation) are modelled by an
  explicit Host oracle supplying the collaborators' answers, plus an event
  log recording which host-mutating operations were invoked.
-/

set_option maxRecDepth 10000

/- ---------- enumerations (from the libvirt domain model, as used here) ---------- -/

inductive NetModel
  | virtio
  | e1000
  | otherModel
deriving DecidableEq

inductive NetKind
  | bridge
  | otherKind
deriving DecidableEq

inductive ChrKind
  | nmdm
  | otherChr
deriving DecidableEq

inductive DiskBus
  | sata
  | virtio
  | otherBus
deriving DecidableEq

inductive DiskDevice
  | disk
  | cdrom
  | lun
deriving DecidableEq

inductive StorageKind
  | file
  | volume
  | blockDev
  | otherStorage
deriving DecidableEq

inductive CtrlKind
  | pci
  | sata
  | usb
  | isa
  | otherCtrl
deriving DecidableEq

inductive CtrlModel
  | pciRoot
  | otherCtrlModel
deriving DecidableEq

inductive InputBus
  | usb
  | otherInputBus
deriving DecidableEq

inductive InputKind
  | tablet
  | otherInput
deriving DecidableEq

inductive GraphicsKind
  | vnc
  | otherGraphics
deriving DecidableEq

inductive ListenKind
  | address
  | network
  | socket
  | noListen
  | lastListen
deriving DecidableEq

inductive SoundModel
  | ich7
  | otherSound
deriving DecidableEq

inductive AudioKind
  | oss
  | lastAudio
deriving DecidableEq

inductive ClockOffset
  | localtime
  | utc
  | timezoneOff
  | variableOff
deriving DecidableEq

inductive BootDev
  | bootCdrom
  | bootDisk
  | bootFloppy
  | bootNet
deriving DecidableEq

/- ---------- data model ---------- -/

/-- Capability bitset of the installed bhyve binary (BHYVE_CAP_* flags). -/
structure BhyveCaps where
  netE1000 : Bool
  ahci32slot : Bool
  cputopology : Bool
  rtcUtc : Bool
  lpcBootrom : Bool
  fbuf : Bool
  soundHda : Bool
  grubConsdev : Bool
deriving DecidableEq

structure CpuTopology where
  sockets : Nat
  cores : Nat
  threads : Nat
  dies : Nat
deriving DecidableEq

/-- A disk definition.  `source` is the resolved source path
    (virDomainDiskGetSource after virDomainDiskTranslateSourcePool);
    `translateOk` records whether virDomainDiskTranslateSourcePool
    (the external storage-source resolution collaborator) succeeds. -/
structure Disk where
  bus : DiskBus
  device : DiskDevice
  storageKind : StorageKind
  source : Option String
  translateOk : Bool
  driveController : Nat
  pciSlot : Nat
  bootIndex : Nat
deriving DecidableEq

structure Controller where
  kind : CtrlKind
  model : CtrlModel
  idx : Nat
  pciSlot : Nat
  pciFunction : Nat
deriving DecidableEq

structure Net where
  model : NetModel
  actualKind : NetKind
  bridge : Option String
  ifname : Option String
  mac : String
  pciSlot : Nat
deriving DecidableEq

structure Chr where
  kind : ChrKind
  port : Nat
  path : String
deriving DecidableEq

structure InputDev where
  bus : InputBus
  kind : InputKind
deriving DecidableEq

structure ListenDef where
  kind : ListenKind
  address : Option String
deriving DecidableEq

structure Graphics where
  kind : GraphicsKind
  listen : Option ListenDef
  autoport : Bool
  vncPort : Int
  passwd : Option String
deriving DecidableEq

structure Video where
  pciSlot : Nat
  pciFunction : Nat
  res : Option (Nat × Nat)
  vgaconf : Option String
deriving DecidableEq

structure Sound where
  model : SoundModel
  pciSlot : Nat
  pciFunction : Nat
deriving DecidableEq

structure Audio where
  kind : AudioKind
  inputDev : Option String
  outputDev : Option String
deriving DecidableEq

structure OsDef where
  bootloader : Option String
  bootloaderArgs : Option String
  loaderPath : Option String
  bootDevs : List BootDev
deriving DecidableEq

/-- The VM configuration (the parts of virDomainDef consumed by this file).
    `sounds` pairs each sound device with the audio backend that
    virDomainDefFindAudioForSound (an external lookup) associates with it. -/
structure DomainDef where
  name : String
  vcpus : Nat
  cpu : Option CpuTopology
  memory : Nat
  memLocked : Bool
  featureAcpi : Bool
  featureApic : Bool
  featureMsrs : Bool
  msrsUnknownIgnore : Bool
  clockOffset : ClockOffset
  os : OsDef
  controllers : List Controller
  nets : List Net
  disks : List Disk
  inputs : List InputDev
  graphics : List Graphics
  videos : List Video
  sounds : List (Sound × Option Audio)
  serials : List Chr
  cmdlineArgs : List String
deriving DecidableEq

/- ---------- errors, events, command results ---------- -/

/-- Error taxonomy: virReportError kinds raised by this file.  `otherErr`
    stands for a failure whose error was reported by an external collaborator
    (source-pool translation, tap creation, port allocation) or a silent
    NULL return. -/
inductive VirErr
  | unsupported (msg : String)
  | internalErr (msg : String)
  | otherErr
deriving DecidableEq

/-- Host-mutating operations invoked during a build. -/
inductive HostEvent
  | tapCreate (bridge : Option String) (pattern : String)
  | tapResolve (name : String)
  | ifUp (name : String)
  | portAcquire
  | portSetUsed (port : Int)
deriving DecidableEq

/-- Oracle for the answers of host-side collaborators (tap subsystem,
    port allocator).  Purely an input; consulting it is recorded as events. -/
structure Host where
  tapCreateOk : Bool
  tapName : String
  realName : Option String
  setOnlineOk : Bool
  portAllocOk : Bool
  allocatedPort : Int
deriving DecidableEq

/-- A built command: executable path plus ordered argument list. -/
structure BuiltCommand where
  exec : String
  args : List String
deriving DecidableEq

def BHYVE : String := "bhyve"
def BHYVELOAD : String := "bhyveload"
def BHYVECTL : String := "bhyvectl"

/-- Result of one build step: emitted arguments (or the aborting error)
    together with the host events committed by the step. -/
abbrev BuildRes := Except VirErr (List String) × List HostEvent

/-- Sequence two steps: on failure of the first, the second never runs
    (no arguments, no events); events already committed are kept. -/
def thenRun (a b : BuildRes) : BuildRes :=
  match a with
  | (.error e, evs) => (.error e, evs)
  | (.ok args, evs) =>
      match b with
      | (.error e, evs2) => (.error e, evs ++ evs2)
      | (.ok args2, evs2) => (.ok (args ++ args2), evs ++ evs2)

def pureArgs (l : List String) : BuildRes := (.ok l, [])

def liftRes (r : Except VirErr (List String)) : BuildRes := (r, [])

/-- Run one step per list element, aborting on the first failure
    (the per-device loops with goto error). -/
def foldSteps {α : Type} (f : α → BuildRes) : List α → BuildRes
  | [] => pureArgs []
  | x :: xs => thenRun (f x) (foldSteps f xs)

/-- Event-free variant for loops whose bodies have no host effects. -/
def foldArgsE {α : Type} (f : α → Except VirErr (List String)) :
    List α → Except VirErr (List String)
  | [] => .ok []
  | x :: xs =>
      match f x with
      | .error e => .error e
      | .ok a =>
          match foldArgsE f xs with
          | .error e => .error e
          | .ok b => .ok (a ++ b)

/- ---------- bhyveBuildNetArgStr ---------- -/

/-- NIC model selection at the top of bhyveBuildNetArgStr. -/
def nicModelFor (caps : BhyveCaps) (m : NetModel) : Except VirErr String :=
  match m with
  | .virtio => .ok "virtio-net"
  | .e1000 =>
      if caps.netE1000 then .ok "e1000"
      else .error (.unsupported "NIC model e1000 is not supported by given bhyve binary")
  | .otherModel => .error (.unsupported "NIC model is not supported")

/-- The interface-name pattern handed to tap creation: the configured name
    unless it is absent, starts with the generated-tap name space (vnet), or
    contains a percent sign, in which case the generated pattern is used. -/
def requestedIfname (ifname : Option String) : String :=
  match ifname with
  | none => "vnet%d"
  | some s => if s.take 4 = "vnet" || s.contains '%' then "vnet%d" else s

/-- The "-s <slot>:0,<model>,<ifname>,mac=<mac>" argument pair. -/
def netSlotArg (net : Net) (model realif : String) : List String :=
  ["-s", toString net.pciSlot ++ ":0," ++ model ++ "," ++ realif ++ ",mac=" ++ net.mac]

def bhyveBuildNetArgStr (caps : BhyveCaps) (host : Host) (dryRun : Bool)
    (net : Net) : BuildRes :=
  match nicModelFor caps net.model with
  | .error e => (.error e, [])
  | .ok model =>
      match net.actualKind with
      | .bridge =>
          let pattern := requestedIfname net.ifname
          if dryRun then
            (.ok (netSlotArg net model "tap0"), [])
          else
            let ev1 : List HostEvent := [.tapCreate net.bridge pattern]
            if host.tapCreateOk then
              let ev2 := ev1 ++ [.tapResolve host.tapName]
              match host.realName with
              | none => (.error .otherErr, ev2)
              | some realif =>
                  let ev3 := ev2 ++ [.ifUp host.tapName]
                  if host.setOnlineOk then (.ok (netSlotArg net model realif), ev3)
                  else (.error .otherErr, ev3)
            else (.error .otherErr, ev1)
      | .otherKind => (.error (.unsupported "Network type is not supported"), [])

/- ---------- bhyveBuildConsoleArgStr ---------- -/

def bhyveBuildConsoleArgStr (dd : DomainDef) : Except VirErr (List String) :=
  match dd.serials.head? with
  | none => .ok []
  | some chr =>
      if chr.kind ≠ ChrKind.nmdm then
        .error (.unsupported "only nmdm console types are supported")
      else if chr.port > 2 then
        .error (.unsupported "only two serial ports are supported")
      else
        .ok ["-l", "com" ++ toString (chr.port + 1) ++ "," ++ chr.path]

/- ---------- bhyveBuildAHCIControllerArgStr ---------- -/

/-- The per-disk body of the AHCI loop: validation and the device
    sub-fragment, in source order (storage kind, pool translation,
    cdrom source presence, device-kind switch). -/
def ahciDiskFragment (caps : BhyveCaps) (disk : Disk) : Except VirErr String :=
  if disk.storageKind ≠ StorageKind.file ∧ disk.storageKind ≠ StorageKind.volume then
    .error (.unsupported "unsupported disk type")
  else if ¬ disk.translateOk then
    .error .otherErr
  else if disk.device = DiskDevice.cdrom ∧ disk.source = none then
    .error (.unsupported "cdrom device without source path not supported")
  else
    match disk.device with
    | .disk =>
        .ok ((if caps.ahci32slot then ",hd:" else "-hd,") ++ disk.source.getD "(null)")
    | .cdrom =>
        .ok ((if caps.ahci32slot then ",cd:" else "-cd,") ++ disk.source.getD "(null)")
    | .lun => .error (.unsupported "unsupported disk device")

/-- The disks the AHCI loop does not skip: SATA bus, bound to this
    controller's index. -/
def ahciControllerDisks (dd : DomainDef) (ctrl : Controller) : List Disk :=
  dd.disks.filter (fun d => d.bus == DiskBus.sata && d.driveController == ctrl.idx)

def ahciFragments (caps : BhyveCaps) : List Disk → Except VirErr String
  | [] => .ok ""
  | d :: rest =>
      match ahciDiskFragment caps d with
      | .error e => .error e
      | .ok frag =>
          match ahciFragments caps rest with
          | .error e => .error e
          | .ok s => .ok (frag ++ s)

def bhyveBuildAHCIControllerArgStr (dd : DomainDef) (caps : BhyveCaps)
    (ctrl : Controller) : Except VirErr (List String) :=
  match ahciFragments caps (ahciControllerDisks dd ctrl) with
  | .error e => .error e
  | .ok frags => .ok ["-s", toString ctrl.pciSlot ++ ":0,ahci" ++ frags]

/- ---------- bhyveBuildUSBControllerArgStr ---------- -/

def usbInputsOk : List InputDev → Except VirErr Nat
  | [] => .ok 0
  | i :: rest =>
      if i.bus ≠ InputBus.usb then
        .error (.unsupported "only USB input devices are supported")
      else if i.kind ≠ InputKind.tablet then
        .error (.unsupported "only tablet input devices are supported")
      else
        match usbInputsOk rest with
        | .error e => .error e
        | .ok n => .ok (n + 1)

def bhyveBuildUSBControllerArgStr (dd : DomainDef) (ctrl : Controller) :
    Except VirErr (List String) :=
  match usbInputsOk dd.inputs with
  | .error e => .error e
  | .ok n =>
      if n ≠ 1 then .error (.unsupported "only single input device is supported")
      else
        .ok ["-s", toString ctrl.pciSlot ++ ":" ++ toString ctrl.pciFunction
              ++ ",xhci,tablet"]

/- ---------- bhyveBuildVirtIODiskArgStr / bhyveBuildDiskArgStr ---------- -/

def bhyveBuildVirtIODiskArgStr (disk : Disk) : Except VirErr (List String) :=
  if ¬ disk.translateOk then
    .error .otherErr
  else if disk.device ≠ DiskDevice.disk then
    .error (.unsupported "unsupported disk device")
  else if disk.storageKind ≠ StorageKind.file ∧ disk.storageKind ≠ StorageKind.volume then
    .error (.unsupported "unsupported disk type")
  else
    .ok ["-s", toString disk.pciSlot ++ ":0,virtio-blk," ++ disk.source.getD "(null)"]

def bhyveBuildDiskArgStr (disk : Disk) : Except VirErr (List String) :=
  match disk.bus with
  | .sata => .ok []
  | .virtio => bhyveBuildVirtIODiskArgStr disk
  | .otherBus => .error (.unsupported "unsupported disk device")

/- ---------- bhyveBuildControllerArgStr (loop with USB/ISA counters) ---------- -/

def buildControllers (dd : DomainDef) (caps : BhyveCaps) :
    List Controller → Nat → Nat → Except VirErr (List String)
  | [], _, _ => .ok []
  | c :: rest, nusb, nisa =>
      match c.kind with
      | .pci =>
          if c.model ≠ CtrlModel.pciRoot then
            .error (.unsupported "unsupported PCI controller model: only PCI root supported")
          else buildControllers dd caps rest nusb nisa
      | .sata =>
          match bhyveBuildAHCIControllerArgStr dd caps c with
          | .error e => .error e
          | .ok args =>
              match buildControllers dd caps rest nusb nisa with
              | .error e => .error e
              | .ok args2 => .ok (args ++ args2)
      | .usb =>
          if nusb + 1 > 1 then
            .error (.unsupported "only single USB controller is supported")
          else
            match bhyveBuildUSBControllerArgStr dd c with
            | .error e => .error e
            | .ok args =>
                match buildControllers dd caps rest (nusb + 1) nisa with
                | .error e => .error e
                | .ok args2 => .ok (args ++ args2)
      | .isa =>
          if nisa + 1 > 1 then
            .error (.unsupported "only single ISA controller is supported")
          else
            match buildControllers dd caps rest nusb (nisa + 1) with
            | .error e => .error e
            | .ok args2 => .ok (["-s", toString c.pciSlot ++ ":0,lpc"] ++ args2)
      | .otherCtrl => buildControllers dd caps rest nusb nisa

/- ---------- bhyveBuildGraphicsArgStr ---------- -/

/-- Tail of the framebuffer option string: port, optional resolution,
    optional vga driver sub-argument. -/
def graphicsFinish (opt : String) (port : Int) (v : Video) : String :=
  let o1 := opt ++ ":" ++ toString port
  let o2 :=
    match v.res with
    | none => o1
    | some xy => o1 ++ ",w=" ++ toString xy.1 ++ ",h=" ++ toString xy.2
  match v.vgaconf with
  | none => o2
  | some s => o2 ++ ",vga=" ++ s

/-- The framebuffer option prefix for the tcp listen branch:
    "<slot>:<function>,fbuf,tcp=<listen address, bracketed when it holds a colon>". -/
def fbufOptBase (v : Video) (glisten : ListenDef) : String :=
  toString v.pciSlot ++ ":" ++ toString v.pciFunction ++ ",fbuf,tcp=" ++
  (match glisten.address with
   | none => ""
   | some addr => if addr.contains ':' then "[" ++ addr ++ "]" else addr)

/-- The VIR_DOMAIN_GRAPHICS_LISTEN_TYPE_ADDRESS/NETWORK branch of the
    listen-type switch: port-range check, password rejection, port
    allocation (skipped in dry-run) and the final option string. -/
def graphicsTcpArgs (g : Graphics) (v : Video) (glisten : ListenDef)
    (host : Host) (dryRun : Bool) : BuildRes :=
  if ¬ g.autoport ∧ (g.vncPort < 5900 ∨ g.vncPort > 65535) then
    (.error (.unsupported "vnc port must be in range 5900-65535"), [])
  else if g.passwd ≠ none then
    (.error (.unsupported "vnc password auth not supported"), [])
  else if dryRun then
    (.ok ["-s", graphicsFinish (fbufOptBase v glisten) g.vncPort v], [])
  else if g.autoport then
    if host.portAllocOk then
      (.ok ["-s", graphicsFinish (fbufOptBase v glisten) host.allocatedPort v],
       [HostEvent.portAcquire])
    else (.error .otherErr, [HostEvent.portAcquire])
  else
    (.ok ["-s", graphicsFinish (fbufOptBase v glisten) g.vncPort v],
     [HostEvent.portSetUsed g.vncPort])

def bhyveBuildGraphicsArgStr (dd : DomainDef) (g : Graphics) (v : Video)
    (caps : BhyveCaps) (host : Host) (dryRun : Bool) : BuildRes :=
  if ¬ caps.lpcBootrom ∨ dd.os.bootloader ≠ none ∨ dd.os.loaderPath = none then
    (.error (.unsupported "Graphics are only supported when booting using UEFI"), [])
  else if ¬ caps.fbuf then
    (.error (.unsupported "Bhyve version does not support framebuffer"), [])
  else if g.kind ≠ GraphicsKind.vnc then
    (.error (.unsupported "Only VNC supported"), [])
  else
    match g.listen with
    | none => (.error (.internalErr "Missing listen element"), [])
    | some glisten =>
        match glisten.kind with
        | .address | .network => graphicsTcpArgs g v glisten host dryRun
        | .socket | .noListen =>
            (.error (.unsupported "Unsupported listen type"), [])
        | .lastListen =>
            (.error (.internalErr "unexpected listen type"), [])

/-- The graphics/video block of the assembler: formatter invoked only when
    both lists are nonempty; multiple devices rejected. -/
def bhyveGraphicsStep (dd : DomainDef) (caps : BhyveCaps) (host : Host)
    (dryRun : Bool) : BuildRes :=
  match dd.graphics, dd.videos with
  | [], _ => pureArgs []
  | _, [] => pureArgs []
  | [g], [v] => bhyveBuildGraphicsArgStr dd g v caps host dryRun
  | _, _ => (.error (.unsupported "Multiple graphics devices are not supported"), [])

/- ---------- bhyveBuildSoundArgStr ---------- -/

def bhyveBuildSoundArgStr (caps : BhyveCaps) (sa : Sound × Option Audio) :
    Except VirErr (List String) :=
  if ¬ caps.soundHda then
    .error (.unsupported "Sound devices emulation is not supported by given bhyve binary")
  else if sa.1.model ≠ SoundModel.ich7 then
    .error (.unsupported "Sound device model is not supported")
  else
    match sa.2 with
    | none =>
        .ok ["-s", toString sa.1.pciSlot ++ ":" ++ toString sa.1.pciFunction ++ ",hda"]
    | some audio =>
        match audio.kind with
        | .oss =>
            let p1 := match audio.inputDev with | none => "" | some d => ",play=" ++ d
            let p2 := match audio.outputDev with | none => "" | some d => ",rec=" ++ d
            .ok ["-s", toString sa.1.pciSlot ++ ":" ++ toString sa.1.pciFunction
                  ++ ",hda" ++ p1 ++ p2]
        | .lastAudio => .error (.unsupported "unsupported audio backend")

/- ---------- virBhyveProcessBuildBhyveCmd ---------- -/

/-- The CPU block: "-c" plus either plain vCPU count or the
    capability-gated topology argument, with the topology invariants. -/
def cpuArgs (dd : DomainDef) (caps : BhyveCaps) : Except VirErr (List String) :=
  match dd.cpu with
  | some topo =>
      if topo.sockets ≠ 0 then
        if topo.dies ≠ 1 then
          .error (.unsupported "Only 1 die per socket is supported")
        else if dd.vcpus ≠ topo.sockets * topo.cores * topo.threads then
          .error (.unsupported
            "Invalid CPU topology: total number of vCPUs must equal the product of sockets, cores, and threads")
        else if caps.cputopology then
          .ok ["-c", "cpus=" ++ toString dd.vcpus
                ++ ",sockets=" ++ toString topo.sockets
                ++ ",cores=" ++ toString topo.cores
                ++ ",threads=" ++ toString topo.threads]
        else
          .error (.unsupported "Installed bhyve binary does not support defining CPU topology")
      else .ok ["-c", toString dd.vcpus]
  | none => .ok ["-c", toString dd.vcpus]

/-- "-m <memory rounded up to MiB>" and the optional wired-memory flag. -/
def memArgs (dd : DomainDef) : List String :=
  ["-m", toString ((dd.memory + 1023) / 1024)] ++ (if dd.memLocked then ["-S"] else [])

def featureArgs (dd : DomainDef) : List String :=
  (if dd.featureAcpi then ["-A"] else []) ++
  (if dd.featureApic then ["-I"] else []) ++
  (if dd.featureMsrs ∧ dd.msrsUnknownIgnore then ["-w"] else [])

/-- The clock-offset switch. -/
def clockArgs (off : ClockOffset) (caps : BhyveCaps) : Except VirErr (List String) :=
  match off with
  | .localtime => .ok []
  | .utc =>
      if caps.rtcUtc then .ok ["-u"]
      else .error (.unsupported "Installed bhyve binary does not support UTC clock")
  | _ => .error (.unsupported "unsupported clock offset")

/-- The firmware-loader (bootrom) entry: only when no external bootloader
    is set and a loader is configured; capability gated. -/
def loaderEntryArgs (dd : DomainDef) (caps : BhyveCaps) : Except VirErr (List String) :=
  match dd.os.bootloader, dd.os.loaderPath with
  | none, some p =>
      if caps.lpcBootrom then .ok ["-l", "bootrom," ++ p]
      else .error (.unsupported "Installed bhyve binary does not support UEFI loader")
  | _, _ => .ok []

/-- virBhyveProcessBuildBhyveCmd up to (and excluding) the graphics block:
    CPU, memory, features, clock, guest-exit flags, host bridge, loader
    entry, controllers, network interfaces, disks. -/
def buildPreGraphics (dd : DomainDef) (caps : BhyveCaps) (host : Host)
    (dryRun : Bool) : BuildRes :=
  thenRun (liftRes (cpuArgs dd caps)) <|
  thenRun (pureArgs (memArgs dd)) <|
  thenRun (pureArgs (featureArgs dd)) <|
  thenRun (liftRes (clockArgs dd.clockOffset caps)) <|
  thenRun (pureArgs ["-H", "-P", "-s", "0:0,hostbridge"]) <|
  thenRun (liftRes (loaderEntryArgs dd caps)) <|
  thenRun (liftRes (buildControllers dd caps dd.controllers 0 0)) <|
  thenRun (foldSteps (bhyveBuildNetArgStr caps host dryRun) dd.nets)
    (liftRes (foldArgsE bhyveBuildDiskArgStr dd.disks))

/-- Wrap the accumulated argument list into the final bhyve command. -/
def finishCmd (r : BuildRes) : Except VirErr BuiltCommand × List HostEvent :=
  match r with
  | (.error e, evs) => (.error e, evs)
  | (.ok args, evs) => (.ok ⟨BHYVE, args⟩, evs)

def virBhyveProcessBuildBhyveCmd (dd : DomainDef) (caps : BhyveCaps)
    (dryRun : Bool) (host : Host) : Except VirErr BuiltCommand × List HostEvent :=
  finishCmd <|
    thenRun (buildPreGraphics dd caps host dryRun) <|
    thenRun (bhyveGraphicsStep dd caps host dryRun) <|
    thenRun (liftRes (foldArgsE (bhyveBuildSoundArgStr caps) dd.sounds)) <|
    thenRun (liftRes (bhyveBuildConsoleArgStr dd))
      (pureArgs (dd.cmdlineArgs ++ [dd.name]))

/- ---------- virBhyveProcessBuildDestroyCmd ---------- -/

def virBhyveProcessBuildDestroyCmd (dd : DomainDef) : BuiltCommand :=
  ⟨BHYVECTL, ["--destroy", "--vm=" ++ dd.name]⟩

/- ---------- boot resolution and loader selection ---------- -/

/-- virBhyveUsableDisk: pool translation succeeds, recognized device kind,
    usable storage backing. -/
def virBhyveUsableDisk (d : Disk) : Bool :=
  d.translateOk &&
  (d.device == DiskDevice.disk || d.device == DiskDevice.cdrom) &&
  (d.storageKind == StorageKind.file || d.storageKind == StorageKind.volume)

/-- Split a character list at every space, keeping empty tokens
    (the semantics of g_strsplit on a single-space separator). -/
def splitChars : List Char → List Char → List String
  | [], acc => [String.mk acc.reverse]
  | c :: rest, acc =>
      if c = ' ' then String.mk acc.reverse :: splitChars rest []
      else splitChars rest (c :: acc)

/-- The naive whitespace tokenization of the bootloader argument string
    (virStringSplit on a single-space separator; no quoting; an empty
    string yields no tokens). -/
def splitBootloaderArgs (s : String) : List String :=
  if s = "" then [] else splitChars s.data []

/-- Does the second character list start with the first? -/
def leadsWith : List Char → List Char → Bool
  | [], _ => true
  | _ :: _, [] => false
  | p :: ps, c :: rest => p == c && leadsWith ps rest

/-- strstr: does `pat` occur as a contiguous substring of the list? -/
def occursIn (pat : List Char) : List Char → Bool
  | [] => leadsWith pat []
  | c :: rest => leadsWith pat (c :: rest) || occursIn pat rest

def virBhyveProcessBuildBhyveloadCmd (dd : DomainDef) (disk : Disk) : BuiltCommand :=
  match dd.os.bootloaderArgs with
  | none =>
      ⟨BHYVELOAD, ["-m", toString ((dd.memory + 1023) / 1024),
                   "-d", disk.source.getD "(null)", dd.name]⟩
  | some s => ⟨BHYVELOAD, splitBootloaderArgs s⟩

def virBhyveProcessBuildCustomLoaderCmd (dd : DomainDef) :
    Except VirErr BuiltCommand :=
  match dd.os.bootloaderArgs with
  | none =>
      .error (.unsupported "Custom loader requires explicit bootloader_args configuration")
  | some s => .ok ⟨dd.os.bootloader.getD "", splitBootloaderArgs s⟩

/-- State of the grub-bhyve disk-selection loop (cd, hdd, userdef, best_idx;
    best index none stands for the initial UINT_MAX). -/
structure GrubPick where
  cd : Option Disk
  hdd : Option Disk
  userdef : Option Disk
  bestIdx : Option Nat
deriving DecidableEq

def grubPickLoop : List Disk → GrubPick → GrubPick
  | [], st => st
  | d :: rest, st =>
      if ¬ virBhyveUsableDisk d then grubPickLoop rest st
      else if d.bootIndex != 0 &&
              (match st.bestIdx with | none => true | some b => d.bootIndex < b) then
        grubPickLoop rest { st with userdef := some d, bestIdx := some d.bootIndex }
      else
        let st1 :=
          if st.cd = none ∧ d.device = DiskDevice.cdrom then { st with cd := some d }
          else st
        let st2 :=
          if st1.hdd = none ∧ d.device = DiskDevice.disk then { st1 with hdd := some d }
          else st1
        grubPickLoop rest st2

def virBhyveFormatGrubDevice (d : Disk) : String :=
  if d.device = DiskDevice.cdrom then "(cd) " ++ d.source.getD "(null)" ++ "\n"
  else "(hd0) " ++ d.source.getD "(null)" ++ "\n"

/-- The capability-gated console-passthrough arguments of the grub-bhyve
    command. -/
def grubConsArgs (dd : DomainDef) (caps : BhyveCaps) : Except VirErr (List String) :=
  if caps.grubConsdev ∧ dd.serials.length > 0 then
    match dd.serials.head? with
    | none => .ok []
    | some chr =>
        if chr.kind ≠ ChrKind.nmdm then
          .error (.unsupported "only nmdm console types are supported")
        else .ok ["--cons-dev", chr.path]
  else .ok []

def virBhyveProcessBuildGrubbhyveCmd (dd : DomainDef) (caps : BhyveCaps)
    (devmapFile : String) (wantDevmap : Bool) :
    Except VirErr (BuiltCommand × Option String) :=
  match dd.os.bootloaderArgs with
  | some _ =>
      match virBhyveProcessBuildCustomLoaderCmd dd with
      | .error e => .error e
      | .ok c => .ok (c, none)
  | none =>
      let pick := grubPickLoop dd.disks ⟨none, none, none, none⟩
      let devmap : Option String :=
        if wantDevmap then
          some (match pick.userdef with
            | some u => virBhyveFormatGrubDevice u
            | none =>
                (match pick.hdd with
                 | some h => virBhyveFormatGrubDevice h
                 | none => "") ++
                (match pick.cd with
                 | some c => virBhyveFormatGrubDevice c
                 | none => ""))
        else none
      let rootArg : String :=
        match pick.userdef with
        | some u => if u.device = DiskDevice.cdrom then "cd" else "hd0,msdos1"
        | none =>
            match pick.cd with
            | some _ => "cd"
            | none => "hd0,msdos1"
      match grubConsArgs dd caps with
      | .error e => .error e
      | .ok cons =>
          .ok (⟨dd.os.bootloader.getD "",
                ["--root", rootArg, "--device-map", devmapFile,
                 "--memory", toString ((dd.memory + 1023) / 1024)] ++ cons ++ [dd.name]⟩,
               devmap)

/-- The boot-index scan of virBhyveGetBootDisk: `found` is the disk with a
    boot-index marker seen so far; `lastUsable` tracks the value of the
    first_usable_disk_index variable, which the source overwrites on every
    usable disk. -/
def bootIndexScan : List Disk → Option Disk → Option Disk → Except VirErr Disk
  | [], found, lastUsable =>
      match found with
      | some d => .ok d
      | none =>
          match lastUsable with
          | some d => .ok d
          | none => .error .otherErr
  | d :: rest, found, lastUsable =>
      if ¬ virBhyveUsableDisk d then bootIndexScan rest found lastUsable
      else
        if d.bootIndex > 0 then
          match found with
          | none => bootIndexScan rest (some d) (some d)
          | some _ => .error (.unsupported "Only one boot device is supported")
        else bootIndexScan rest found (some d)

def virBhyveGetBootDisk (dd : DomainDef) : Except VirErr Disk :=
  if dd.disks.length < 1 then
    .error (.unsupported "Domain should have at least one disk defined")
  else if dd.os.bootDevs.length > 1 then
    .error (.unsupported "Only one boot device is supported")
  else
    match dd.os.bootDevs with
    | [bd] =>
        match (match bd with
               | BootDev.bootCdrom => some DiskDevice.cdrom
               | BootDev.bootDisk => some DiskDevice.disk
               | _ => none) with
        | none => .error (.unsupported "Cannot boot from device")
        | some target =>
            match dd.disks.find? (fun d => virBhyveUsableDisk d && d.device == target) with
            | some d => .ok d
            | none => .error (.unsupported "Cannot find boot device of requested type")
    | _ => bootIndexScan dd.disks none none

def virBhyveProcessBuildLoadCmd (dd : DomainDef) (caps : BhyveCaps)
    (devmapFile : String) (wantDevmap : Bool) :
    Except VirErr (BuiltCommand × Option String) :=
  match dd.os.bootloader with
  | none =>
      match virBhyveGetBootDisk dd with
      | .error e => .error e
      | .ok disk => .ok (virBhyveProcessBuildBhyveloadCmd dd disk, none)
  | some bl =>
      if occursIn "grub-bhyve".data bl.data then
        virBhyveProcessBuildGrubbhyveCmd dd caps devmapFile wantDevmap
      else
        match virBhyveProcessBuildCustomLoaderCmd dd with
        | .error e => .error e
        | .ok c => .ok (c, none)

/- ---------- specification-side helpers and decidability ---------- -/

instance exceptDecEq {ε α : Type} [DecidableEq ε] [DecidableEq α] :
    DecidableEq (Except ε α) := fun a b =>
  match a, b with
  | .error e1, .error e2 =>
      match decEq e1 e2 with
      | .isTrue h => .isTrue (by rw [h])
      | .isFalse h => .isFalse (fun hx => h (by injection hx))
  | .error _, .ok _ => .isFalse (fun hx => Except.noConfusion hx)
  | .ok _, .error _ => .isFalse (fun hx => Except.noConfusion hx)
  | .ok a1, .ok a2 =>
      match decEq a1 a2 with
      | .isTrue h => .isTrue (by rw [h])
      | .isFalse h => .isFalse (fun hx => h (by injection hx))

/-- Concatenation of a list of strings (used to state the AHCI claim). -/
def concatAll : List String → String
  | [] => ""
  | s :: rest => s ++ concatAll rest

/-- Specification-side statement of the per-disk AHCI sub-fragment grammar:
    ",hd:"/",cd:" syntax when the 32-slot AHCI capability is present, and
    the legacy "-hd,"/"-cd," suffix syntax otherwise. -/
def ahciFragOfDisk (caps : BhyveCaps) (d : Disk) : String :=
  (if caps.ahci32slot then
     (if d.device = DiskDevice.cdrom then ",cd:" else ",hd:")
   else
     (if d.device = DiskDevice.cdrom then "-cd," else "-hd,"))
  ++ d.source.getD "(null)"

/- ---------- concrete fixtures for witnesses and counterexamples ---------- -/

def capsAll : BhyveCaps :=
  { netE1000 := true, ahci32slot := true, cputopology := true, rtcUtc := true,
    lpcBootrom := true, fbuf := true, soundHda := true, grubConsdev := true }

def capsNone : BhyveCaps :=
  { netE1000 := false, ahci32slot := false, cputopology := false, rtcUtc := false,
    lpcBootrom := false, fbuf := false, soundHda := false, grubConsdev := false }

def emptyOs : OsDef :=
  { bootloader := none, bootloaderArgs := none, loaderPath := none, bootDevs := [] }

def emptyDomain : DomainDef :=
  { name := "vm0", vcpus := 1, cpu := none, memory := 262144, memLocked := false,
    featureAcpi := false, featureApic := false, featureMsrs := false,
    msrsUnknownIgnore := false, clockOffset := ClockOffset.localtime,
    os := emptyOs, controllers := [], nets := [], disks := [], inputs := [],
    graphics := [], videos := [], sounds := [], serials := [], cmdlineArgs := [] }

def hostA : Host :=
  { tapCreateOk := true, tapName := "vnet0", realName := some "tap3",
    setOnlineOk := true, portAllocOk := true, allocatedPort := 5901 }

def hostB : Host :=
  { tapCreateOk := false, tapName := "vnet9", realName := none,
    setOnlineOk := false, portAllocOk := false, allocatedPort := 6100 }

def c1DiskA : Disk :=
  { bus := DiskBus.sata, device := DiskDevice.disk, storageKind := StorageKind.file,
    source := some "/a.img", translateOk := true, driveController := 0,
    pciSlot := 2, bootIndex := 0 }

def c1DiskB : Disk := { c1DiskA with source := some "/b.img", pciSlot := 3 }

def c1Def : DomainDef := { emptyDomain with disks := [c1DiskA, c1DiskB] }

def c2Chr : Chr := { kind := ChrKind.nmdm, port := 0, path := "/dev/nmdm0A" }

def c2Def : DomainDef := { emptyDomain with serials := [c2Chr] }

def c2wChr : Chr := { kind := ChrKind.nmdm, port := 1, path := "/dev/nmdm1A" }

def c2wDef : DomainDef := { emptyDomain with serials := [c2wChr] }

def c3Topo : CpuTopology := { sockets := 2, cores := 2, threads := 1, dies := 1 }

def c3Def : DomainDef :=
  { emptyDomain with
    vcpus := 4,
    cpu := some c3Topo }

def c3BadDef : DomainDef :=
  { emptyDomain with
    vcpus := 3,
    cpu := some c3Topo }

def c4Net : Net :=
  { model := NetModel.virtio, actualKind := NetKind.bridge, bridge := some "virbr0",
    ifname := none, mac := "52:54:00:00:00:01", pciSlot := 3 }

def c4Def : DomainDef := { emptyDomain with nets := [c4Net] }

def c5Disk : Disk :=
  { bus := DiskBus.sata, device := DiskDevice.disk, storageKind := StorageKind.file,
    source := some "/a.img", translateOk := true, driveController := 1,
    pciSlot := 2, bootIndex := 0 }

def c5BadDisk : Disk := { c5Disk with storageKind := StorageKind.blockDev }

def c5Ctrl : Controller :=
  { kind := CtrlKind.sata, model := CtrlModel.otherCtrlModel, idx := 1,
    pciSlot := 4, pciFunction := 0 }

def c5Def : DomainDef := { emptyDomain with disks := [c5Disk], controllers := [c5Ctrl] }

def c5BadDef : DomainDef :=
  { emptyDomain with disks := [c5BadDisk], controllers := [c5Ctrl] }

def c6NoPathDef : DomainDef :=
  { emptyDomain with os := { emptyOs with bootloaderArgs := some "-m 256 -d /x" } }

def c6WOs : OsDef :=
  { emptyOs with
    bootloader := some "/usr/local/sbin/myloader",
    bootloaderArgs := some "-a 1 -b 2" }

def c6WDef : DomainDef := { emptyDomain with os := c6WOs }

def c6Disk : Disk :=
  { bus := DiskBus.virtio, device := DiskDevice.disk, storageKind := StorageKind.file,
    source := some "/root.img", translateOk := true, driveController := 0,
    pciSlot := 2, bootIndex := 0 }

def c6W2Def : DomainDef :=
  { emptyDomain with
    os := { emptyOs with bootloaderArgs := some "-x y" },
    disks := [c6Disk] }

def c7Def : DomainDef := { emptyDomain with clockOffset := ClockOffset.utc }

def c8Graphics : Graphics :=
  { kind := GraphicsKind.vnc,
    listen := some { kind := ListenKind.address, address := some "10.0.0.1" },
    autoport := true, vncPort := 5900, passwd := none }

def c8Video : Video :=
  { pciSlot := 6, pciFunction := 0, res := none, vgaconf := none }

def c8Def : DomainDef :=
  { emptyDomain with graphics := [c8Graphics], videos := [c8Video] }

def c9Ctrl : Controller :=
  { kind := CtrlKind.sata, model := CtrlModel.otherCtrlModel, idx := 3,
    pciSlot := 5, pciFunction := 0 }

def c9Disk : Disk :=
  { bus := DiskBus.sata, device := DiskDevice.disk, storageKind := StorageKind.file,
    source := some "/other.img", translateOk := true, driveController := 0,
    pciSlot := 2, bootIndex := 0 }

def c9Def : DomainDef := { emptyDomain with disks := [c9Disk], controllers := [c9Ctrl] }

def c10MultiDef : DomainDef :=
  { emptyDomain with graphics := [c8Graphics, c8Graphics], videos := [c8Video] }

def c10NoVideoDef : DomainDef := { emptyDomain with graphics := [c8Graphics] }

/- ---------- general lemmas about step sequencing ---------- -/

theorem thenRun_err (e : VirErr) (evs : List HostEvent) (b : BuildRes) :
    thenRun (.error e, evs) b = (.error e, evs) := rfl

theorem thenRun_ok_ok (a1 a2 : List String) (e1 e2 : List HostEvent) :
    thenRun (.ok a1, e1) (.ok a2, e2) = (.ok (a1 ++ a2), e1 ++ e2) := rfl

theorem thenRun_ok_err (a1 : List String) (e : VirErr) (e1 e2 : List HostEvent) :
    thenRun (.ok a1, e1) (.error e, e2) = (.error e, e1 ++ e2) := rfl

theorem thenRun_fst_error (a b : BuildRes) (e : VirErr) (h : a.1 = .error e) :
    (thenRun a b).1 = .error e := by
  obtain ⟨a1, ae⟩ := a
  have ha : a1 = .error e := h
  subst ha
  rfl

theorem thenRun_snd_nil (a b : BuildRes) (ha : a.2 = []) (hb : b.2 = []) :
    (thenRun a b).2 = [] := by
  obtain ⟨a1, ae⟩ := a
  obtain ⟨b1, be⟩ := b
  have ha2 : ae = [] := ha
  have hb2 : be = [] := hb
  subst ha2
  subst hb2
  cases a1 <;> cases b1 <;> rfl

theorem foldSteps_congr {α : Type} (f g : α → BuildRes) (l : List α)
    (h : ∀ x ∈ l, f x = g x) : foldSteps f l = foldSteps g l := by
  induction l with
  | nil => rfl
  | cons x xs ih =>
      show thenRun (f x) (foldSteps f xs) = thenRun (g x) (foldSteps g xs)
      rw [h x (List.mem_cons_self x xs), ih (fun y hy => h y (List.mem_cons_of_mem x hy))]

theorem foldSteps_snd_nil {α : Type} (f : α → BuildRes) (l : List α)
    (h : ∀ x ∈ l, (f x).2 = []) : (foldSteps f l).2 = [] := by
  induction l with
  | nil => rfl
  | cons x xs ih =>
      show (thenRun (f x) (foldSteps f xs)).2 = []
      exact thenRun_snd_nil _ _ (h x (List.mem_cons_self x xs))
        (ih (fun y hy => h y (List.mem_cons_of_mem x hy)))

theorem finishCmd_snd (r : BuildRes) : (finishCmd r).2 = r.2 := by
  obtain ⟨r1, evs⟩ := r
  cases r1 <;> rfl

theorem finishCmd_fst_error (r : BuildRes) (e : VirErr) (h : r.1 = .error e) :
    (finishCmd r).1 = .error e := by
  obtain ⟨r1, evs⟩ := r
  have h2 : r1 = .error e := h
  subst h2
  rfl

/- ---------- error-propagation lemmas for the assembler ---------- -/

theorem pre_err_of_cpu (dd : DomainDef) (caps : BhyveCaps) (host : Host)
    (dryRun : Bool) (e : VirErr) (h : cpuArgs dd caps = .error e) :
    (buildPreGraphics dd caps host dryRun).1 = .error e := by
  unfold buildPreGraphics
  apply thenRun_fst_error
  simp [liftRes, h]

theorem pre_err_of_clock (dd : DomainDef) (caps : BhyveCaps) (host : Host)
    (dryRun : Bool) (ca : List String) (e : VirErr)
    (hcpu : cpuArgs dd caps = .ok ca)
    (h : clockArgs dd.clockOffset caps = .error e) :
    (buildPreGraphics dd caps host dryRun).1 = .error e := by
  unfold buildPreGraphics
  rw [hcpu, h]
  simp [liftRes, pureArgs, thenRun_err, thenRun_ok_ok, thenRun_ok_err]

theorem build_err_of_pre (dd : DomainDef) (caps : BhyveCaps) (dryRun : Bool)
    (host : Host) (e : VirErr)
    (h : (buildPreGraphics dd caps host dryRun).1 = .error e) :
    (virBhyveProcessBuildBhyveCmd dd caps dryRun host).1 = .error e := by
  unfold virBhyveProcessBuildBhyveCmd
  exact finishCmd_fst_error _ _ (thenRun_fst_error _ _ _ h)

theorem build_err_of_graphics (dd : DomainDef) (caps : BhyveCaps) (dryRun : Bool)
    (host : Host) (args : List String) (evs : List HostEvent) (e : VirErr)
    (hpre : buildPreGraphics dd caps host dryRun = (.ok args, evs))
    (hg : (bhyveGraphicsStep dd caps host dryRun).1 = .error e) :
    (virBhyveProcessBuildBhyveCmd dd caps dryRun host).1 = .error e := by
  unfold virBhyveProcessBuildBhyveCmd
  apply finishCmd_fst_error
  rw [hpre]
  rcases hgs : bhyveGraphicsStep dd caps host dryRun with ⟨g1, ge⟩
  rw [hgs] at hg
  have hg2 : g1 = .error e := hg
  subst hg2
  rfl

/- ---------- dry-run lemmas ---------- -/

theorem net_dry_host_irrel (caps : BhyveCaps) (h1 h2 : Host) (net : Net) :
    bhyveBuildNetArgStr caps h1 true net = bhyveBuildNetArgStr caps h2 true net := by
  unfold bhyveBuildNetArgStr
  cases nicModelFor caps net.model <;> cases net.actualKind <;> simp

theorem net_dry_snd_nil (caps : BhyveCaps) (h : Host) (net : Net) :
    (bhyveBuildNetArgStr caps h true net).2 = [] := by
  unfold bhyveBuildNetArgStr
  cases nicModelFor caps net.model <;> cases net.actualKind <;> simp

theorem tcp_dry_host_irrel (g : Graphics) (v : Video) (glisten : ListenDef)
    (h1 h2 : Host) :
    graphicsTcpArgs g v glisten h1 true = graphicsTcpArgs g v glisten h2 true := by
  unfold graphicsTcpArgs
  split_ifs <;> first | rfl | simp_all

theorem tcp_dry_snd_nil (g : Graphics) (v : Video) (glisten : ListenDef) (h : Host) :
    (graphicsTcpArgs g v glisten h true).2 = [] := by
  unfold graphicsTcpArgs
  split_ifs <;> first | rfl | simp_all

theorem graphics_dry_host_irrel (dd : DomainDef) (g : Graphics) (v : Video)
    (caps : BhyveCaps) (h1 h2 : Host) :
    bhyveBuildGraphicsArgStr dd g v caps h1 true =
      bhyveBuildGraphicsArgStr dd g v caps h2 true := by
  unfold bhyveBuildGraphicsArgStr
  cases g.listen with
  | none => split_ifs <;> rfl
  | some gl =>
      obtain ⟨k, addr⟩ := gl
      cases k <;> split_ifs <;>
        first | rfl | exact tcp_dry_host_irrel g v _ h1 h2

theorem graphics_dry_snd_nil (dd : DomainDef) (g : Graphics) (v : Video)
    (caps : BhyveCaps) (h : Host) :
    (bhyveBuildGraphicsArgStr dd g v caps h true).2 = [] := by
  unfold bhyveBuildGraphicsArgStr
  cases g.listen with
  | none => split_ifs <;> rfl
  | some gl =>
      obtain ⟨k, addr⟩ := gl
      cases k <;> split_ifs <;>
        first | rfl | exact tcp_dry_snd_nil g v _ h

theorem graphicsStep_dry_host_irrel (dd : DomainDef) (caps : BhyveCaps)
    (h1 h2 : Host) :
    bhyveGraphicsStep dd caps h1 true = bhyveGraphicsStep dd caps h2 true := by
  unfold bhyveGraphicsStep
  rcases hg : dd.graphics with _ | ⟨g, _ | ⟨g2, gs⟩⟩ <;>
    rcases hv : dd.videos with _ | ⟨v, _ | ⟨v2, vs⟩⟩ <;>
      first
        | rfl
        | exact graphics_dry_host_irrel dd g v caps h1 h2

theorem graphicsStep_dry_snd_nil (dd : DomainDef) (caps : BhyveCaps) (h : Host) :
    (bhyveGraphicsStep dd caps h true).2 = [] := by
  unfold bhyveGraphicsStep
  rcases hg : dd.graphics with _ | ⟨g, _ | ⟨g2, gs⟩⟩ <;>
    rcases hv : dd.videos with _ | ⟨v, _ | ⟨v2, vs⟩⟩ <;>
      first
        | rfl
        | exact graphics_dry_snd_nil dd g v caps h

theorem preGraphics_dry_host_irrel (dd : DomainDef) (caps : BhyveCaps)
    (h1 h2 : Host) :
    buildPreGraphics dd caps h1 true = buildPreGraphics dd caps h2 true := by
  unfold buildPreGraphics
  rw [foldSteps_congr (bhyveBuildNetArgStr caps h1 true)
        (bhyveBuildNetArgStr caps h2 true) dd.nets
        (fun x _ => net_dry_host_irrel caps h1 h2 x)]

theorem preGraphics_dry_snd_nil (dd : DomainDef) (caps : BhyveCaps) (h : Host) :
    (buildPreGraphics dd caps h true).2 = [] := by
  unfold buildPreGraphics
  refine thenRun_snd_nil _ _ rfl ?_
  refine thenRun_snd_nil _ _ rfl ?_
  refine thenRun_snd_nil _ _ rfl ?_
  refine thenRun_snd_nil _ _ rfl ?_
  refine thenRun_snd_nil _ _ rfl ?_
  refine thenRun_snd_nil _ _ rfl ?_
  refine thenRun_snd_nil _ _ rfl ?_
  refine thenRun_snd_nil _ _ ?_ rfl
  exact foldSteps_snd_nil _ _ (fun x _ => net_dry_snd_nil caps h x)

/-- C4: in dry-run mode the build consults no host collaborator: the result is
    identical for any two host oracles (determinism as a two-run property), the
    event log is empty (no tap creation, no real-name resolution, no
    interface-up, no display-port allocation), and every successful network
    argument uses the fixed placeholder interface name "tap0". -/
theorem c4_dry_run_determinism (dd : DomainDef) (caps : BhyveCaps) (h1 h2 : Host) :
    virBhyveProcessBuildBhyveCmd dd caps true h1 =
      virBhyveProcessBuildBhyveCmd dd caps true h2
    ∧ (virBhyveProcessBuildBhyveCmd dd caps true h1).2 = []
    ∧ (∀ net args, (bhyveBuildNetArgStr caps h1 true net).1 = .ok args →
        ∃ m, nicModelFor caps net.model = .ok m ∧ args = netSlotArg net m "tap0") := by
  refine ⟨?_, ?_, ?_⟩
  · unfold virBhyveProcessBuildBhyveCmd
    rw [preGraphics_dry_host_irrel dd caps h1 h2,
        graphicsStep_dry_host_irrel dd caps h1 h2]
  · unfold virBhyveProcessBuildBhyveCmd
    rw [finishCmd_snd]
    refine thenRun_snd_nil _ _ (preGraphics_dry_snd_nil dd caps h1) ?_
    refine thenRun_snd_nil _ _ (graphicsStep_dry_snd_nil dd caps h1) ?_
    refine thenRun_snd_nil _ _ rfl ?_
    exact thenRun_snd_nil _ _ rfl rfl
  · intro net args hnet
    unfold bhyveBuildNetArgStr at hnet
    rcases hm : nicModelFor caps net.model with e | m <;> rw [hm] at hnet
    · simp at hnet
    · cases hk : net.actualKind <;> rw [hk] at hnet <;> simp at hnet
      exact ⟨m, rfl, hnet.symm⟩

/-- C4 witness: a concrete dry-run build evaluated at two different host
    oracles, and a concrete network argument using the placeholder name. -/
theorem c4_dry_run_determinism_witness :
    virBhyveProcessBuildBhyveCmd c4Def capsAll true hostA =
      virBhyveProcessBuildBhyveCmd c4Def capsAll true hostB
    ∧ (virBhyveProcessBuildBhyveCmd c4Def capsAll true hostA).2 = []
    ∧ (∃ m, nicModelFor capsAll c4Net.model = .ok m
        ∧ ["-s", "3:0,virtio-net,tap0,mac=52:54:00:00:00:01"] =
            netSlotArg c4Net m "tap0") := by
  obtain ⟨he, hev, hn⟩ := c4_dry_run_determinism c4Def capsAll hostA hostB
  exact ⟨he, hev, hn c4Net ["-s", "3:0,virtio-net,tap0,mac=52:54:00:00:00:01"] (by decide)⟩

/- ---------- C3: CPU topology ---------- -/

/-- C3: with a CPU topology configured (sockets set), the build fails with
    UnsupportedConfiguration and returns no command when dies is not 1, when
    sockets*cores*threads differs from the vCPU count, or when the capability
    bitset lacks CPU-topology support; otherwise the CPU block emits the
    combined cpus/sockets/cores/threads argument.  Without a topology the CPU
    block emits just the vCPU count. -/
theorem c3_cpu_topology (dd : DomainDef) (caps : BhyveCaps) (dryRun : Bool)
    (host : Host) (t : CpuTopology) (hc : dd.cpu = some t) (hs : t.sockets ≠ 0) :
    (t.dies ≠ 1 →
      (virBhyveProcessBuildBhyveCmd dd caps dryRun host).1 =
        .error (.unsupported "Only 1 die per socket is supported"))
    ∧ (t.dies = 1 → dd.vcpus ≠ t.sockets * t.cores * t.threads →
      (virBhyveProcessBuildBhyveCmd dd caps dryRun host).1 =
        .error (.unsupported
          "Invalid CPU topology: total number of vCPUs must equal the product of sockets, cores, and threads"))
    ∧ (t.dies = 1 → dd.vcpus = t.sockets * t.cores * t.threads →
       caps.cputopology = false →
      (virBhyveProcessBuildBhyveCmd dd caps dryRun host).1 =
        .error (.unsupported "Installed bhyve binary does not support defining CPU topology"))
    ∧ (t.dies = 1 → dd.vcpus = t.sockets * t.cores * t.threads →
       caps.cputopology = true →
      cpuArgs dd caps = .ok ["-c", "cpus=" ++ toString dd.vcpus
        ++ ",sockets=" ++ toString t.sockets
        ++ ",cores=" ++ toString t.cores
        ++ ",threads=" ++ toString t.threads])
    ∧ (∀ dd2 : DomainDef, dd2.cpu = none →
      cpuArgs dd2 caps = .ok ["-c", toString dd2.vcpus]) := by
  refine ⟨?_, ?_, ?_, ?_, ?_⟩
  · intro hd
    refine build_err_of_pre dd caps dryRun host _ (pre_err_of_cpu dd caps host dryRun _ ?_)
    unfold cpuArgs
    rw [hc]
    simp [hs, hd]
  · intro hd hv
    refine build_err_of_pre dd caps dryRun host _ (pre_err_of_cpu dd caps host dryRun _ ?_)
    unfold cpuArgs
    rw [hc]
    simp [hs, hd, hv]
  · intro hd hv hcap
    refine build_err_of_pre dd caps dryRun host _ (pre_err_of_cpu dd caps host dryRun _ ?_)
    unfold cpuArgs
    rw [hc]
    simp [hs, hd, hv, hcap]
  · intro hd hv hcap
    unfold cpuArgs
    rw [hc]
    simp [hs, hd, hv, hcap]
  · intro dd2 h2
    unfold cpuArgs
    rw [h2]

/-- C3 witness: a valid 2x2x1 topology for 4 vCPUs emits the combined CPU
    argument, and the same topology with 3 vCPUs aborts the build. -/
theorem c3_cpu_topology_witness :
    cpuArgs c3Def capsAll = .ok ["-c", "cpus=4,sockets=2,cores=2,threads=1"]
    ∧ (virBhyveProcessBuildBhyveCmd c3BadDef capsAll false hostA).1 =
        .error (.unsupported
          "Invalid CPU topology: total number of vCPUs must equal the product of sockets, cores, and threads") := by
  constructor
  · have h := (c3_cpu_topology c3Def capsAll false hostA c3Topo rfl (by decide)).2.2.2.1
      rfl rfl rfl
    exact h.trans (by decide)
  · exact (c3_cpu_topology c3BadDef capsAll false hostA c3Topo rfl (by decide)).2.1
      rfl (by decide)

/- ---------- C7: clock offset ---------- -/

/-- C7: a localtime clock offset emits no argument (bhyve default); a UTC
    offset emits the "-u" flag exactly when the capability bitset has UTC-RTC
    support and otherwise fails with UnsupportedConfiguration (a failure that
    aborts the whole build); every other clock offset fails with
    UnsupportedConfiguration. -/
theorem c7_clock_offset (dd : DomainDef) (caps : BhyveCaps) (dryRun : Bool)
    (host : Host) (ca : List String) (hcpu : cpuArgs dd caps = .ok ca) :
    clockArgs ClockOffset.localtime caps = .ok []
    ∧ (caps.rtcUtc = true → clockArgs ClockOffset.utc caps = .ok ["-u"])
    ∧ (caps.rtcUtc = false → clockArgs ClockOffset.utc caps =
        .error (.unsupported "Installed bhyve binary does not support UTC clock"))
    ∧ (∀ off, off ≠ ClockOffset.localtime → off ≠ ClockOffset.utc →
        clockArgs off caps =
          .error (.unsupported "unsupported clock offset"))
    ∧ (dd.clockOffset = ClockOffset.utc → caps.rtcUtc = false →
        (virBhyveProcessBuildBhyveCmd dd caps dryRun host).1 =
          .error (.unsupported "Installed bhyve binary does not support UTC clock")) := by
  refine ⟨rfl, ?_, ?_, ?_, ?_⟩
  · intro h
    unfold clockArgs
    simp [h]
  · intro h
    unfold clockArgs
    simp [h]
  · intro off h1 h2
    cases off <;> simp_all [clockArgs]
  · intro hoff hcap
    refine build_err_of_pre dd caps dryRun host _
      (pre_err_of_clock dd caps host dryRun ca _ hcpu ?_)
    rw [hoff]
    unfold clockArgs
    simp [hcap]

/-- C7 witness: a UTC-clock configuration against a capability bitset without
    UTC-RTC support aborts the build; with support the flag is emitted. -/
theorem c7_clock_offset_witness :
    (virBhyveProcessBuildBhyveCmd c7Def capsNone false hostA).1 =
      .error (.unsupported "Installed bhyve binary does not support UTC clock")
    ∧ clockArgs ClockOffset.utc capsAll = .ok ["-u"] := by
  constructor
  · exact (c7_clock_offset c7Def capsNone false hostA ["-c", "1"] (by decide)).2.2.2.2
      rfl rfl
  · exact (c7_clock_offset c7Def capsAll false hostA ["-c", "1"] (by decide)).2.1 rfl

/- ---------- C1: boot-disk selection without markers ---------- -/

/-- C1: evidence of a code bug.  In a configuration with two eligible disks
    (/a.img first, /b.img second), no boot-index marker and an empty top-level
    boot order, virBhyveGetBootDisk returns the SECOND (last) eligible disk,
    although its own comment says "just return the first usable disk" and its
    tracking variable is named first_usable_disk_index: the source overwrites
    that variable on every usable disk instead of only the first one. -/
theorem c1_boot_disk_picks_last_not_first :
    virBhyveUsableDisk c1DiskA = true
    ∧ virBhyveUsableDisk c1DiskB = true
    ∧ c1Def.disks = [c1DiskA, c1DiskB]
    ∧ c1Def.os.bootDevs = []
    ∧ c1DiskA.bootIndex = 0
    ∧ c1DiskB.bootIndex = 0
    ∧ virBhyveGetBootDisk c1Def = .ok c1DiskB
    ∧ c1DiskB ≠ c1DiskA := by
  refine ⟨rfl, rfl, rfl, rfl, rfl, rfl, by decide, by decide⟩

/- ---------- C2: console formatter ---------- -/

/-- C2 counterexample: the claim says only port indices 1 and 2 are accepted
    (mapped to com1 and com2) and every other index fails; but the code
    accepts port index 0 and maps it to com1 (and more generally maps index p
    to com(p+1), also accepting index 2 as com3). -/
theorem c2_console_counterexample :
    c2Def.serials = [c2Chr]
    ∧ c2Chr.port = 0
    ∧ c2Chr.kind = ChrKind.nmdm
    ∧ bhyveBuildConsoleArgStr c2Def = .ok ["-l", "com1,/dev/nmdm0A"] := by
  refine ⟨rfl, rfl, rfl, by decide⟩

/-- C2 (amended): the console formatter uses only the first serial device,
    accepts only the nmdm transport kind, accepts exactly the port indices
    0, 1 and 2 — mapping index p to the fixed channel name com(p+1), i.e.
    com1..com3 — and fails with UnsupportedConfiguration for every port
    index above 2. -/
theorem c2_console_behavior (dd : DomainDef) (chr : Chr) (rest : List Chr)
    (h : dd.serials = chr :: rest) :
    bhyveBuildConsoleArgStr dd =
      bhyveBuildConsoleArgStr { dd with serials := [chr] }
    ∧ (chr.kind ≠ ChrKind.nmdm →
        bhyveBuildConsoleArgStr dd =
          .error (.unsupported "only nmdm console types are supported"))
    ∧ (chr.kind = ChrKind.nmdm → chr.port ≤ 2 →
        bhyveBuildConsoleArgStr dd =
          .ok ["-l", "com" ++ toString (chr.port + 1) ++ "," ++ chr.path])
    ∧ (chr.kind = ChrKind.nmdm → chr.port > 2 →
        bhyveBuildConsoleArgStr dd =
          .error (.unsupported "only two serial ports are supported")) := by
  refine ⟨?_, ?_, ?_, ?_⟩
  · unfold bhyveBuildConsoleArgStr
    rw [h]
    rfl
  · intro hk
    unfold bhyveBuildConsoleArgStr
    rw [h]
    simp [hk]
  · intro hk hp
    unfold bhyveBuildConsoleArgStr
    rw [h]
    simp [hk, Nat.not_lt.mpr hp]
  · intro hk hp
    unfold bhyveBuildConsoleArgStr
    rw [h]
    simp [hk, hp]

/-- C2 witness: a concrete nmdm serial device at port index 1 is accepted and
    mapped to channel com2, and a port index 3 is rejected. -/
theorem c2_console_behavior_witness :
    bhyveBuildConsoleArgStr c2wDef = .ok ["-l", "com2,/dev/nmdm1A"]
    ∧ bhyveBuildConsoleArgStr
        { emptyDomain with serials := [{ kind := ChrKind.nmdm, port := 3, path := "/p" }] } =
      .error (.unsupported "only two serial ports are supported") := by
  constructor
  · have h := (c2_console_behavior c2wDef c2wChr [] rfl).2.2.1 rfl (by decide)
    exact h.trans (by decide)
  · exact (c2_console_behavior
      { emptyDomain with serials := [{ kind := ChrKind.nmdm, port := 3, path := "/p" }] }
      { kind := ChrKind.nmdm, port := 3, path := "/p" } [] rfl).2.2.2 rfl (by decide)

/- ---------- C9: SATA controller with no bound disks ---------- -/

/-- C9: a SATA controller to which no disk is bound does not fail and is not
    omitted: the AHCI formatter still emits "-s" "<slot>:0,ahci" with an
    empty device-list suffix. -/
theorem c9_empty_sata_controller (dd : DomainDef) (caps : BhyveCaps)
    (ctrl : Controller)
    (h : ∀ d ∈ dd.disks, ¬(d.bus = DiskBus.sata ∧ d.driveController = ctrl.idx)) :
    bhyveBuildAHCIControllerArgStr dd caps ctrl =
      .ok ["-s", toString ctrl.pciSlot ++ ":0,ahci"] := by
  have hnil : ahciControllerDisks dd ctrl = [] := by
    rw [ahciControllerDisks, List.filter_eq_nil_iff]
    intro d hd
    have hc := h d hd
    simp only [Bool.and_eq_true, beq_iff_eq, not_and] at hc ⊢
    exact hc
  rw [bhyveBuildAHCIControllerArgStr, hnil]
  show Except.ok ["-s", toString ctrl.pciSlot ++ ":0,ahci" ++ ""] = _
  rw [String.append_empty]

/-- C9 witness: a controller with index 3 and slot 5, while the only disk in
    the configuration is bound to controller 0, still yields "-s" "5:0,ahci". -/
theorem c9_empty_sata_controller_witness :
    bhyveBuildAHCIControllerArgStr c9Def capsAll c9Ctrl = .ok ["-s", "5:0,ahci"] := by
  have h := c9_empty_sata_controller c9Def capsAll c9Ctrl (by decide)
  exact h.trans (by decide)

/- ---------- C5: SATA/AHCI controller validation and fragment grammar ---------- -/

theorem ahciDiskFragment_bad (caps : BhyveCaps) (d : Disk)
    (ht : d.translateOk = true)
    (hb : (d.storageKind ≠ StorageKind.file ∧ d.storageKind ≠ StorageKind.volume)
          ∨ (d.device = DiskDevice.cdrom ∧ d.source = none)
          ∨ (d.device ≠ DiskDevice.disk ∧ d.device ≠ DiskDevice.cdrom)) :
    ∃ m, ahciDiskFragment caps d = .error (.unsupported m) := by
  unfold ahciDiskFragment
  by_cases hs : d.storageKind ≠ StorageKind.file ∧ d.storageKind ≠ StorageKind.volume
  · rw [if_pos hs]
    exact ⟨_, rfl⟩
  · rw [if_neg hs, if_neg (by simp [ht])]
    rcases hb with h | h | h
    · exact absurd h hs
    · rw [if_pos h]
      exact ⟨_, rfl⟩
    · rw [if_neg (fun hx => h.2 hx.1)]
      cases hd : d.device
      · exact absurd hd h.1
      · exact absurd hd h.2
      · exact ⟨_, rfl⟩

theorem ahciDiskFragment_good (caps : BhyveCaps) (d : Disk)
    (ht : d.translateOk = true)
    (hs : d.storageKind = StorageKind.file ∨ d.storageKind = StorageKind.volume)
    (hcd : d.device = DiskDevice.cdrom → d.source ≠ none)
    (hdev : d.device = DiskDevice.disk ∨ d.device = DiskDevice.cdrom) :
    ahciDiskFragment caps d = .ok (ahciFragOfDisk caps d) := by
  unfold ahciDiskFragment
  rw [if_neg (by rcases hs with h | h <;> simp [h]), if_neg (by simp [ht]),
      if_neg (fun hx => hcd hx.1 hx.2)]
  rcases hdev with h | h <;> rw [h] <;> unfold ahciFragOfDisk <;> rw [h] <;>
    cases hc : caps.ahci32slot <;> simp

theorem ahciFragments_bad (caps : BhyveCaps) (l : List Disk)
    (ht : ∀ d ∈ l, d.translateOk = true)
    (hb : ∃ d ∈ l,
        (d.storageKind ≠ StorageKind.file ∧ d.storageKind ≠ StorageKind.volume)
        ∨ (d.device = DiskDevice.cdrom ∧ d.source = none)
        ∨ (d.device ≠ DiskDevice.disk ∧ d.device ≠ DiskDevice.cdrom)) :
    ∃ m, ahciFragments caps l = .error (.unsupported m) := by
  induction l with
  | nil => simp at hb
  | cons d rest ih =>
      by_cases hd :
          (d.storageKind ≠ StorageKind.file ∧ d.storageKind ≠ StorageKind.volume)
          ∨ (d.device = DiskDevice.cdrom ∧ d.source = none)
          ∨ (d.device ≠ DiskDevice.disk ∧ d.device ≠ DiskDevice.cdrom)
      · obtain ⟨m, hm⟩ :=
          ahciDiskFragment_bad caps d (ht d (List.mem_cons_self d rest)) hd
        refine ⟨m, ?_⟩
        show (match ahciDiskFragment caps d with
              | .error e => .error e
              | .ok frag =>
                  match ahciFragments caps rest with
                  | .error e => .error e
                  | .ok s => .ok (frag ++ s)) = Except.error (VirErr.unsupported m)
        rw [hm]
      · have hgood : ahciDiskFragment caps d = .ok (ahciFragOfDisk caps d) := by
          push_neg at hd
          exact ahciDiskFragment_good caps d (ht d (List.mem_cons_self d rest))
            (by rcases hd with ⟨h1, _, _⟩; by_cases hf : d.storageKind = StorageKind.file
                · exact Or.inl hf
                · exact Or.inr (h1 hf))
            (fun hx => (hd.2.1 hx))
            (by by_cases hf : d.device = DiskDevice.disk
                · exact Or.inl hf
                · exact Or.inr (hd.2.2 hf))
        have hrest : ∃ d ∈ rest,
            (d.storageKind ≠ StorageKind.file ∧ d.storageKind ≠ StorageKind.volume)
            ∨ (d.device = DiskDevice.cdrom ∧ d.source = none)
            ∨ (d.device ≠ DiskDevice.disk ∧ d.device ≠ DiskDevice.cdrom) := by
          obtain ⟨x, hx, hxbad⟩ := hb
          rcases List.mem_cons.mp hx with hxd | hxr
          · subst hxd
            exact absurd hxbad hd
          · exact ⟨x, hxr, hxbad⟩
        obtain ⟨m, hm⟩ :=
          ih (fun y hy => ht y (List.mem_cons_of_mem d hy)) hrest
        refine ⟨m, ?_⟩
        show (match ahciDiskFragment caps d with
              | .error e => .error e
              | .ok frag =>
                  match ahciFragments caps rest with
                  | .error e => .error e
                  | .ok s => .ok (frag ++ s)) = Except.error (VirErr.unsupported m)
        rw [hgood, hm]

theorem ahciFragments_good (caps : BhyveCaps) (l : List Disk)
    (ht : ∀ d ∈ l, d.translateOk = true)
    (hg : ∀ d ∈ l,
        (d.storageKind = StorageKind.file ∨ d.storageKind = StorageKind.volume)
        ∧ (d.device = DiskDevice.cdrom → d.source ≠ none)
        ∧ (d.device = DiskDevice.disk ∨ d.device = DiskDevice.cdrom)) :
    ahciFragments caps l = .ok (concatAll (l.map (ahciFragOfDisk caps))) := by
  induction l with
  | nil => rfl
  | cons d rest ih =>
      obtain ⟨h1, h2, h3⟩ := hg d (List.mem_cons_self d rest)
      have hgood := ahciDiskFragment_good caps d (ht d (List.mem_cons_self d rest)) h1 h2 h3
      have hrest := ih (fun y hy => ht y (List.mem_cons_of_mem d hy))
        (fun y hy => hg y (List.mem_cons_of_mem d hy))
      show (match ahciDiskFragment caps d with
            | .error e => .error e
            | .ok frag =>
                match ahciFragments caps rest with
                | .error e => .error e
                | .ok s => .ok (frag ++ s)) =
          Except.ok (concatAll ((d :: rest).map (ahciFragOfDisk caps)))
      rw [hgood, hrest]
      rfl

/-- C5: for every SATA controller, a bound disk (SATA bus, matching controller
    index) whose storage backing is neither a plain file nor a managed volume,
    a bound CD-ROM disk lacking a source path, or a bound disk of an
    unrecognized device kind makes the controller formatter fail with
    UnsupportedConfiguration, emitting nothing; otherwise exactly one
    "-s" "<slot>:0,ahci<fragments>" argument group is emitted whose per-disk
    sub-fragments follow the ",hd:"/",cd:" syntax when the 32-slot AHCI
    capability is present and the "-hd,"/"-cd," suffix syntax otherwise
    (ahciFragOfDisk).  Source-pool resolution is assumed to succeed for the
    bound disks (its failure is an external-collaborator error, not a
    configuration error). -/
theorem c5_ahci_controller (dd : DomainDef) (caps : BhyveCaps) (ctrl : Controller)
    (htrans : ∀ d ∈ ahciControllerDisks dd ctrl, d.translateOk = true) :
    ((∃ d ∈ ahciControllerDisks dd ctrl,
        (d.storageKind ≠ StorageKind.file ∧ d.storageKind ≠ StorageKind.volume)
        ∨ (d.device = DiskDevice.cdrom ∧ d.source = none)
        ∨ (d.device ≠ DiskDevice.disk ∧ d.device ≠ DiskDevice.cdrom)) →
      ∃ m, bhyveBuildAHCIControllerArgStr dd caps ctrl = .error (.unsupported m))
    ∧ ((∀ d ∈ ahciControllerDisks dd ctrl,
          (d.storageKind = StorageKind.file ∨ d.storageKind = StorageKind.volume)
          ∧ (d.device = DiskDevice.cdrom → d.source ≠ none)
          ∧ (d.device = DiskDevice.disk ∨ d.device = DiskDevice.cdrom)) →
      bhyveBuildAHCIControllerArgStr dd caps ctrl =
        .ok ["-s", toString ctrl.pciSlot ++ ":0,ahci"
              ++ concatAll ((ahciControllerDisks dd ctrl).map (ahciFragOfDisk caps))]) := by
  constructor
  · intro hb
    obtain ⟨m, hm⟩ := ahciFragments_bad caps (ahciControllerDisks dd ctrl) htrans hb
    refine ⟨m, ?_⟩
    unfold bhyveBuildAHCIControllerArgStr
    rw [hm]
  · intro hg
    have h := ahciFragments_good caps (ahciControllerDisks dd ctrl) htrans hg
    unfold bhyveBuildAHCIControllerArgStr
    rw [h]

/-- C5 witness: one bound file-backed disk yields the single bus-level
    argument with the ",hd:" 32-slot syntax; a bound disk with an unsupported
    storage backing makes the formatter fail. -/
theorem c5_ahci_controller_witness :
    bhyveBuildAHCIControllerArgStr c5Def capsAll c5Ctrl =
      .ok ["-s", "4:0,ahci,hd:/a.img"]
    ∧ (∃ m, bhyveBuildAHCIControllerArgStr c5BadDef capsAll c5Ctrl =
        .error (.unsupported m)) := by
  constructor
  · have h := (c5_ahci_controller c5Def capsAll c5Ctrl (by decide)).2 (by decide)
    exact h.trans (by decide)
  · exact (c5_ahci_controller c5BadDef capsAll c5Ctrl (by decide)).1
      ⟨c5BadDisk, by decide, Or.inl (by decide)⟩

/- ---------- C6: explicit bootloader argument string ---------- -/

/-- C6 counterexample: with a bootloader argument string configured but no
    bootloader path, the load-command builder still runs the boot-disk
    selection, whose failure (no disks here) aborts the build; the claim
    instead promises that the tokens are passed to the configured bootloader
    with no boot-disk search. -/
theorem c6_load_counterexample :
    c6NoPathDef.os.bootloaderArgs = some "-m 256 -d /x"
    ∧ c6NoPathDef.os.bootloader = none
    ∧ virBhyveProcessBuildLoadCmd c6NoPathDef capsAll "devmap" false =
        .error (.unsupported "Domain should have at least one disk defined") := by
  refine ⟨rfl, rfl, by decide⟩

/-- C6 (amended): whenever an explicit external-bootloader argument string is
    configured AND a bootloader path is configured, the loader command is the
    configured bootloader path with the string tokenized on single spaces,
    and no boot-disk search occurs; when the argument string is configured
    without a bootloader path, the boot-disk selection still runs first, its
    failure aborts the build, and on success the default memory-image loader
    (bhyveload) receives the tokenized arguments. -/
theorem c6_bootloader_args (dd : DomainDef) (caps : BhyveCaps)
    (dm : String) (w : Bool) (s : String)
    (h : dd.os.bootloaderArgs = some s) :
    (∀ bl, dd.os.bootloader = some bl →
      virBhyveProcessBuildLoadCmd dd caps dm w =
        .ok (⟨bl, splitBootloaderArgs s⟩, none))
    ∧ (dd.os.bootloader = none →
      virBhyveProcessBuildLoadCmd dd caps dm w =
        (match virBhyveGetBootDisk dd with
         | .error e => .error e
         | .ok _ => .ok (⟨BHYVELOAD, splitBootloaderArgs s⟩, none))) := by
  constructor
  · intro bl hbl
    unfold virBhyveProcessBuildLoadCmd
    rw [hbl]
    show (if occursIn "grub-bhyve".data bl.data then
            virBhyveProcessBuildGrubbhyveCmd dd caps dm w
          else
            match virBhyveProcessBuildCustomLoaderCmd dd with
            | .error e => Except.error e
            | .ok c => Except.ok (c, none)) = _
    have hcustom : virBhyveProcessBuildCustomLoaderCmd dd =
        .ok ⟨bl, splitBootloaderArgs s⟩ := by
      unfold virBhyveProcessBuildCustomLoaderCmd
      rw [h, hbl]
      rfl
    by_cases hgrub : (occursIn "grub-bhyve".data bl.data = true)
    · rw [if_pos hgrub]
      unfold virBhyveProcessBuildGrubbhyveCmd
      rw [h, hcustom]
    · rw [if_neg hgrub, hcustom]
  · intro hbl
    unfold virBhyveProcessBuildLoadCmd
    rw [hbl]
    show (match virBhyveGetBootDisk dd with
          | .error e => Except.error e
          | .ok disk => Except.ok (virBhyveProcessBuildBhyveloadCmd dd disk, none)) = _
    rcases hd : virBhyveGetBootDisk dd with e | disk
    · rfl
    · show Except.ok (virBhyveProcessBuildBhyveloadCmd dd disk, none) = _
      unfold virBhyveProcessBuildBhyveloadCmd
      rw [h]

/-- C6 witness: with bootloader path and argument string both set, the tokens
    go verbatim to the configured path; with only the argument string set and
    one usable disk, the boot-disk search succeeds and bhyveload receives the
    tokens. -/
theorem c6_bootloader_args_witness :
    virBhyveProcessBuildLoadCmd c6WDef capsAll "devmap" true =
      .ok (⟨"/usr/local/sbin/myloader", ["-a", "1", "-b", "2"]⟩, none)
    ∧ virBhyveProcessBuildLoadCmd c6W2Def capsAll "devmap" true =
      .ok (⟨BHYVELOAD, ["-x", "y"]⟩, none) := by
  constructor
  · have h := (c6_bootloader_args c6WDef capsAll "devmap" true "-a 1 -b 2" rfl).1
      "/usr/local/sbin/myloader" rfl
    exact h.trans (by decide)
  · have h := (c6_bootloader_args c6W2Def capsAll "devmap" true "-x y" rfl).2 rfl
    exact h.trans (by decide)

/- ---------- C8: graphics requires UEFI firmware boot ---------- -/

theorem graphics_fmt_uefi (dd : DomainDef) (g : Graphics) (v : Video)
    (caps : BhyveCaps) (host : Host) (dryRun : Bool)
    (h : ¬ caps.lpcBootrom ∨ dd.os.bootloader ≠ none ∨ dd.os.loaderPath = none) :
    bhyveBuildGraphicsArgStr dd g v caps host dryRun =
      (.error (.unsupported "Graphics are only supported when booting using UEFI"), []) := by
  unfold bhyveBuildGraphicsArgStr
  rw [if_pos h]

/-- C8: for a configuration whose graphics device reaches the graphics
    formatter (exactly one graphics and one video device, and every earlier
    assembler step succeeded): if no firmware loader is configured, or an
    external bootloader is configured, or the capability bitset lacks
    firmware-bootrom support, the whole build fails with
    UnsupportedConfiguration citing the UEFI requirement and returns no
    command (early abort: nothing after that point is emitted). -/
theorem c8_graphics_requires_uefi (dd : DomainDef) (caps : BhyveCaps)
    (host : Host) (dryRun : Bool) (g : Graphics) (v : Video)
    (args : List String) (evs : List HostEvent)
    (hpre : buildPreGraphics dd caps host dryRun = (.ok args, evs))
    (hg : dd.graphics = [g]) (hv : dd.videos = [v])
    (hcond : dd.os.loaderPath = none ∨ dd.os.bootloader ≠ none ∨
             caps.lpcBootrom = false) :
    (virBhyveProcessBuildBhyveCmd dd caps dryRun host).1 =
      .error (.unsupported "Graphics are only supported when booting using UEFI") := by
  have hcond2 : ¬ caps.lpcBootrom ∨ dd.os.bootloader ≠ none ∨
      dd.os.loaderPath = none := by
    rcases hcond with hx | hx | hx
    · exact Or.inr (Or.inr hx)
    · exact Or.inr (Or.inl hx)
    · exact Or.inl (by simp [hx])
  have hstep : (bhyveGraphicsStep dd caps host dryRun).1 =
      .error (.unsupported "Graphics are only supported when booting using UEFI") := by
    unfold bhyveGraphicsStep
    rw [hg, hv]
    show (bhyveBuildGraphicsArgStr dd g v caps host dryRun).1 = _
    rw [graphics_fmt_uefi dd g v caps host dryRun hcond2]
  exact build_err_of_graphics dd caps dryRun host args evs _ hpre hstep

/-- C8 witness: one VNC graphics plus one video device and no firmware
    loader configured abort the build with the UEFI message even though all
    earlier steps succeed. -/
theorem c8_graphics_requires_uefi_witness :
    (virBhyveProcessBuildBhyveCmd c8Def capsAll false hostA).1 =
      .error (.unsupported "Graphics are only supported when booting using UEFI") :=
  c8_graphics_requires_uefi c8Def capsAll hostA false c8Graphics c8Video
    ["-c", "1", "-m", "256", "-H", "-P", "-s", "0:0,hostbridge"] []
    (by decide) rfl rfl (Or.inl rfl)

/- ---------- C10: graphics/video pairing guard ---------- -/

theorem tcp_ne_multi (g : Graphics) (v : Video) (glisten : ListenDef)
    (host : Host) (dryRun : Bool) :
    graphicsTcpArgs g v glisten host dryRun ≠
      (.error (.unsupported "Multiple graphics devices are not supported"), []) := by
  intro hx
  unfold graphicsTcpArgs at hx
  split_ifs at hx <;>
    first
      | exact absurd (congrArg Prod.fst hx) (by decide)
      | exact Except.noConfusion (congrArg Prod.fst hx)
      | exact List.noConfusion (congrArg Prod.snd hx)

theorem graphics_fmt_ne_multi (dd : DomainDef) (g : Graphics) (v : Video)
    (caps : BhyveCaps) (host : Host) (dryRun : Bool) :
    bhyveBuildGraphicsArgStr dd g v caps host dryRun ≠
      (.error (.unsupported "Multiple graphics devices are not supported"), []) := by
  intro hx
  unfold bhyveBuildGraphicsArgStr at hx
  split_ifs at hx <;>
    try exact absurd (congrArg Prod.fst hx) (by decide)
  rcases hl : g.listen with _ | gl <;> rw [hl] at hx
  · exact absurd
      (show (Except.error (VirErr.internalErr "Missing listen element"),
             ([] : List HostEvent)) =
            (Except.error (VirErr.unsupported "Multiple graphics devices are not supported"),
             []) from hx)
      (by decide)
  · obtain ⟨k, addr⟩ := gl
    cases k
    · exact tcp_ne_multi g v _ host dryRun hx
    · exact tcp_ne_multi g v _ host dryRun hx
    · exact absurd
        (show (Except.error (VirErr.unsupported "Unsupported listen type"),
               ([] : List HostEvent)) =
              (Except.error (VirErr.unsupported "Multiple graphics devices are not supported"),
               []) from hx)
        (by decide)
    · exact absurd
        (show (Except.error (VirErr.unsupported "Unsupported listen type"),
               ([] : List HostEvent)) =
              (Except.error (VirErr.unsupported "Multiple graphics devices are not supported"),
               []) from hx)
        (by decide)
    · exact absurd
        (show (Except.error (VirErr.internalErr "unexpected listen type"),
               ([] : List HostEvent)) =
              (Except.error (VirErr.unsupported "Multiple graphics devices are not supported"),
               []) from hx)
        (by decide)

/-- C10: when the configuration has graphics devices but no video device, or
    video devices but no graphics device, the graphics block does nothing:
    no validation, no framebuffer argument, no events, no failure.  The
    multiple-graphics-devices failure arises exactly when both device lists
    are nonempty and at least one of them has more than one element. -/
theorem c10_graphics_pairing (dd : DomainDef) (caps : BhyveCaps) (host : Host)
    (dryRun : Bool) :
    ((dd.graphics = [] ∨ dd.videos = []) →
      bhyveGraphicsStep dd caps host dryRun = (.ok [], []))
    ∧ (bhyveGraphicsStep dd caps host dryRun =
         (.error (.unsupported "Multiple graphics devices are not supported"), []) ↔
       (dd.graphics ≠ [] ∧ dd.videos ≠ [] ∧
        (1 < dd.graphics.length ∨ 1 < dd.videos.length))) := by
  unfold bhyveGraphicsStep
  rcases hg : dd.graphics with _ | ⟨g, _ | ⟨g2, gs⟩⟩ <;>
    rcases hv : dd.videos with _ | ⟨v, _ | ⟨v2, vs⟩⟩ <;>
      refine ⟨?_, ?_, ?_⟩ <;>
        simp_all [pureArgs] <;>
          first
            | exact graphics_fmt_ne_multi dd g v caps host dryRun
            | rfl

/-- C10 witness: one graphics device with no video device makes the graphics
    block a no-op, and two graphics devices paired with one video device
    trigger the multiple-graphics-devices failure. -/
theorem c10_graphics_pairing_witness :
    bhyveGraphicsStep c10NoVideoDef capsAll hostA false = (.ok [], [])
    ∧ bhyveGraphicsStep c10MultiDef capsAll hostA false =
        (.error (.unsupported "Multiple graphics devices are not supported"), []) := by
  constructor
  · exact (c10_graphics_pairing c10NoVideoDef capsAll hostA false).1 (Or.inr rfl)
  · exact (c10_graphics_pairing c10MultiDef capsAll hostA false).2.mpr
      ⟨by decide, by decide, Or.inl (by decide)⟩
